import Mathlib

/-!
Verification of the `projeto_variabilidade` repository (two Python modules,
`API.py` and `analysis.py`) against its natural-language specification.

The Python code is shallowly embedded: time series become lists of
observations with a year, a calendar month and a rational value; Python
floats become rationals; fallible code returns `Except`/`Option`;
the external GEV fitting routine (`scipy.stats.genextreme`) is abstracted
as an explicit function parameter.
-/

/-! ## Generic utilities -/

/-- Arithmetic mean of a list of rationals (as computed by `mean` over a
series; the empty case never arises in the theorems below). -/
def meanQ (l : List ℚ) : ℚ := l.sum / l.length

/-- Helper for `firstDedup`: keep the elements not yet seen, threading
the set of elements already emitted. -/
def firstDedupAux {α : Type} [DecidableEq α] (seen : List α) :
    List α → List α
  | [] => []
  | a :: l =>
    if a ∈ seen then firstDedupAux seen l
    else a :: firstDedupAux (a :: seen) l

/-- First-occurrence deduplication, as produced by iterating a list and
keeping each element the first time it appears.  This models both the
key order of a Python `dict` comprehension and the (chronological) group
order of a group-by over a time-sorted series. -/
def firstDedup {α : Type} [DecidableEq α] (l : List α) : List α :=
  firstDedupAux [] l

theorem mem_firstDedupAux {α : Type} [DecidableEq α] {x : α} :
    ∀ {l seen : List α}, x ∈ firstDedupAux seen l ↔ x ∈ l ∧ x ∉ seen
  | [], seen => by simp [firstDedupAux]
  | a :: l, seen => by
    rw [firstDedupAux]
    by_cases ha : a ∈ seen
    · rw [if_pos ha, mem_firstDedupAux]
      constructor
      · exact fun ⟨h1, h2⟩ => ⟨List.mem_cons_of_mem a h1, h2⟩
      · rintro ⟨h1, h2⟩
        rcases List.mem_cons.1 h1 with rfl | h1
        · exact absurd ha h2
        · exact ⟨h1, h2⟩
    · rw [if_neg ha]
      simp only [List.mem_cons, mem_firstDedupAux]
      constructor
      · rintro (rfl | ⟨h1, h2⟩)
        · exact ⟨Or.inl rfl, ha⟩
        · exact ⟨Or.inr h1, fun hx => h2 (Or.inr hx)⟩
      · rintro ⟨rfl | h1, h2⟩
        · exact Or.inl rfl
        · by_cases hxa : x = a
          · exact Or.inl hxa
          · exact Or.inr ⟨h1, by simp [hxa, h2]⟩

theorem mem_firstDedup {α : Type} [DecidableEq α] {x : α} {l : List α} :
    x ∈ firstDedup l ↔ x ∈ l := by
  rw [firstDedup, mem_firstDedupAux]
  simp

theorem nodup_firstDedupAux {α : Type} [DecidableEq α] :
    ∀ (l seen : List α), (firstDedupAux seen l).Nodup
  | [], _ => by simp [firstDedupAux]
  | a :: l, seen => by
    rw [firstDedupAux]
    by_cases ha : a ∈ seen
    · rw [if_pos ha]; exact nodup_firstDedupAux l seen
    · rw [if_neg ha]
      refine List.nodup_cons.2 ⟨?_, nodup_firstDedupAux l (a :: seen)⟩
      intro hmem
      exact (mem_firstDedupAux.1 hmem).2 (List.mem_cons_self a seen)

theorem nodup_firstDedup {α : Type} [DecidableEq α] (l : List α) :
    (firstDedup l).Nodup :=
  nodup_firstDedupAux l []

theorem firstDedup_ne_nil {α : Type} [DecidableEq α] {l : List α}
    (h : l ≠ []) : firstDedup l ≠ [] := by
  cases l with
  | nil => exact absurd rfl h
  | cons a l =>
    rw [firstDedup, firstDedupAux]
    simp

/-- ASCII lowercasing of one character, as `str.lower` acts on the
ASCII unit strings handled here. -/
def lowerChar (c : Char) : Char :=
  if c.toNat ≥ 65 ∧ c.toNat ≤ 90 then Char.ofNat (c.toNat + 32) else c

/-- Python's `str.lower` on the ASCII strings handled here. -/
def strLower (s : String) : String := ⟨s.data.map lowerChar⟩

/-- Substring containment on character lists, modelling Python's
`needle in haystack` test on strings. -/
def containsSub (needle : List Char) : List Char → Bool
  | [] => needle.isEmpty
  | c :: cs => needle.isPrefixOf (c :: cs) || containsSub needle cs

/-- Python's `needle in haystack` on strings. -/
def pyInStr (needle hay : String) : Bool := containsSub needle.toList hay.toList

/-! ## Time-series model (`analysis.py`)

A loaded, spatially averaged series is a list of observations, each with a
calendar year, a calendar month (1–12 for real timestamps) and a value. -/

structure Obs where
  year : Int
  month : Nat
  value : ℚ
deriving DecidableEq, Repr

/-- The distinct years of a series, in order of first appearance
(chronological order for a time-sorted series). -/
def yearsOf (s : List Obs) : List Int := firstDedup (s.map (·.year))

/-- The distinct (year, month) pairs of a series, in order of first
appearance. -/
def ymOf (s : List Obs) : List (Int × Nat) :=
  firstDedup (s.map (fun o => (o.year, o.month)))

/-- Values of the observations falling in a given year and month. -/
def valuesAt (s : List Obs) (y : Int) (m : Nat) : List ℚ :=
  (s.filter (fun o => o.year = y ∧ o.month = m)).map (·.value)

/-- Values of the observations falling in a given year. -/
def yearValues (s : List Obs) (y : Int) : List ℚ :=
  (s.filter (fun o => o.year = y)).map (·.value)

/-- `AGG_METHODS` table of `analysis.py`: accumulative variables use sum. -/
def AGG_METHODS : List (String × String) :=
  [("total_precipitation", "sum"), ("tp", "sum"), ("pr", "sum"),
   ("precipitation", "sum")]

/-- `get_agg_method` of `analysis.py`: `AGG_METHODS.get(variable, "mean")`. -/
def get_agg_method (varName : String) : String :=
  (AGG_METHODS.lookup varName).getD "mean"

/-- Aggregation of a group of values by the given method string
(`"sum"` sums, anything else means). -/
def aggBy (method : String) (l : List ℚ) : ℚ :=
  if method = "sum" then l.sum else meanQ l

/-- `monthly_aggregate`: resample to one value per (year, month) bin,
by sum or mean according to the method. -/
def monthly_aggregate (method : String) (s : List Obs) :
    List ((Int × Nat) × ℚ) :=
  (ymOf s).map (fun k => (k, aggBy method (valuesAt s k.1 k.2)))

/-- Calendar months 1 through 12. -/
def monthNums : List Nat := (List.range 12).map (· + 1)

/-- `monthly_climatology`: the monthly aggregate further grouped by
calendar month and averaged across years.  Group keys are the sorted
distinct month numbers occurring in the monthly aggregate. -/
def monthly_climatology (method : String) (s : List Obs) :
    List (Nat × ℚ) :=
  let monthly := monthly_aggregate method s
  (monthNums.filter (fun m => (ymOf s).any (fun k => k.2 = m))).map
    (fun m => (m, meanQ ((monthly.filter (fun p => p.1.2 = m)).map (·.2))))

/-- `annual_aggregate`: one value per year, by sum or mean. -/
def annual_aggregate (method : String) (s : List Obs) : List (Int × ℚ) :=
  (yearsOf s).map (fun y => (y, aggBy method (yearValues s y)))

/-- The scalar historical annual mean
(`float(hist_annual.mean().values)` in `main`). -/
def annualMeanScalar (method : String) (s : List Obs) : ℚ :=
  meanQ ((annual_aggregate method s).map (·.2))

/-- The annual anomaly computed by `main` (lines 418–420 of
`analysis.py`): the scenario annual series minus the scalar historical
annual mean. -/
def annual_anomaly (method : String) (scen hist : List Obs) :
    List (Int × ℚ) :=
  (annual_aggregate method scen).map
    (fun p => (p.1, p.2 - annualMeanScalar method hist))

/-! ## Datasets and variable resolution (`load_series` in `analysis.py`) -/

/-- A named data variable of a dataset, with its values and its optional
`units` attribute. -/
structure Var where
  name : String
  values : List ℚ
  units : Option String
deriving DecidableEq, Repr

/-- A dataset: its data variables plus the names of its coordinate
variables (membership `name in ds` in xarray sees both). -/
structure Dataset where
  data_vars : List Var
  coords : List String
deriving DecidableEq, Repr

/-- Python's `name in ds` test on an xarray dataset. -/
def dsContains (ds : Dataset) (n : String) : Bool :=
  ds.data_vars.any (fun v => v.name = n) || ds.coords.any (fun c => c = n)

/-- Direct lookup of a data variable by name. -/
def dsGet (ds : Dataset) (n : String) : Option Var :=
  ds.data_vars.find? (fun v => v.name = n)

/-- The static `ALIASES` table of `analysis.py`. -/
def ALIASES : List (String × List String) :=
  [("near_surface_air_temperature", ["tas", "t2m"]),
   ("near_surface_wind_speed", ["sfcWind", "wind_speed", "wind"]),
   ("total_precipitation", ["tp", "pr", "precipitation"])]

/-- `ALIASES.get(variable, [])`. -/
def aliasesFor (varName : String) : List String :=
  (ALIASES.lookup varName).getD []

/-- The `TEMP_NAMES` set of `analysis.py`. -/
def TEMP_NAMES : List String :=
  ["near_surface_air_temperature", "tas", "t2m"]

/-- The `WIND_SPEED_NAMES` set of `analysis.py`. -/
def WIND_SPEED_NAMES : List String :=
  ["near_surface_wind_speed", "sfcWind", "wind_speed", "wind"]

/-- Errors surfaced by the analysis run. -/
inductive AnalysisError
  /-- `KeyError`: requested variable not found; carries the requested name
  and the available data-variable names. -/
  | varNotFound (requested : String) (available : List String)
  /-- `FileNotFoundError` for the historical file. -/
  | histNotFound
  /-- `FileNotFoundError` when no scenario file was found at all. -/
  | noScenario
deriving DecidableEq, Repr

/-- Variable resolution inside `load_series` (lines 357–372 of
`analysis.py`): the literal name first, then the first present alias,
then — if the dataset has exactly one data variable — that variable,
otherwise a variable-not-found error listing the available names. -/
def resolve_variable (ds : Dataset) (varName : String) :
    Except AnalysisError String :=
  if dsContains ds varName then .ok varName
  else
    match (aliasesFor varName).find? (fun a => dsContains ds a) with
    | some a => .ok a
    | none =>
      match ds.data_vars with
      | [v] => .ok v.name
      | _ => .error (.varNotFound varName (ds.data_vars.map (·.name)))

/-- The Kelvin-detection test of `load_series` (line 378):
`"k" in units or units in {"kelvin", "k"}` on the lowercased units
attribute (empty string when absent). -/
def kelvinLike (units : Option String) : Bool :=
  let u := strLower (units.getD "")
  pyInStr "k" u || u = "kelvin" || u = "k"

/-- The temperature-conversion step of `load_series` (lines 375–380):
when the requested or resolved name is temperature-like and the units
attribute is Kelvin-like, subtract 273.15 from every value and rewrite
the units attribute to `"degC"`. -/
def convert_temperature (varName targetVar : String) (da : Var) : Var :=
  if TEMP_NAMES.contains varName || TEMP_NAMES.contains targetVar then
    if kelvinLike da.units then
      { da with values := da.values.map (fun x => x - 273.15),
                units := some "degC" }
    else da
  else da

/-! ## Return levels (`compute_return_levels` in `analysis.py`) -/

/-- The three parameters returned by `genextreme.fit`. -/
structure GEVParams where
  shape : ℚ
  loc : ℚ
  scale : ℚ
deriving DecidableEq, Repr

/-- `compute_return_levels` (lines 265–277 of `analysis.py`), with the
external `genextreme.fit` and `genextreme.ppf` routines abstracted as
function parameters.  `data` is the series of values, `none` standing
for a non-finite (NaN/inf) entry dropped by the `np.isfinite` filter.
Fewer than 5 finite values raise a "series too short" `ValueError`;
otherwise the result holds one level per distinct requested period,
keyed in first-occurrence order like the Python dict comprehension. -/
def compute_return_levels (fit : List ℚ → GEVParams)
    (ppf : ℚ → GEVParams → ℚ) (data : List (Option ℚ))
    (periods : List Int) : Except String (List (Int × ℚ)) :=
  if (data.filterMap id).length < 5 then
    .error "Série muito curta para estimar extremos."
  else
    .ok ((firstDedup periods).map
      (fun p => (p, ppf (1 - 1 / (p : ℚ)) (fit (data.filterMap id)))))

/-! ## Input resolution in `main` (`analysis.py`, lines 389–410) -/

/-- The warning printed on line 405 of `analysis.py` for a scenario
whose file was not found. -/
def scenarioWarning (e : String) : String :=
  "[aviso] Arquivo não encontrado para " ++ e ++ ". Pulei."

/-- The scenario loop of `main`: each experiment with a file is kept (in
order); each experiment without one produces the warning printed on
line 405 and is skipped, the loop continuing with the rest. -/
def scan_scenarios : List (String × Option String) →
    List (String × String) × List String
  | [] => ([], [])
  | (e, some p) :: rest =>
    ((e, p) :: (scan_scenarios rest).1, (scan_scenarios rest).2)
  | (e, none) :: rest =>
    ((scan_scenarios rest).1, scenarioWarning e :: (scan_scenarios rest).2)

/-- File resolution in `main`: a missing historical file is fatal
(line 391); missing scenario files are skipped with a warning; if no
scenario file at all was found the run fails (line 410). -/
def resolve_inputs (histPath : Option String)
    (scens : List (String × Option String)) :
    Except AnalysisError (List (String × String) × List String) :=
  match histPath with
  | none => .error .histNotFound
  | some _ =>
    if (scan_scenarios scens).1 = [] then .error .noScenario
    else .ok (scan_scenarios scens)

/-! ## The return-level block of `main` (`analysis.py`, lines 430–440)

The block calls `annual_max`, a name that is never defined anywhere in
the module (or the repository); Python raises `NameError` at that call,
which the surrounding `except Exception` clause catches and downgrades
to a warning, so the block can never actually compute return levels. -/

/-- The names bound at module level in `analysis.py`: the imports and
every top-level assignment and `def`. -/
def analysisModuleNames : List String :=
  ["annotations", "argparse", "tempfile", "contextmanager", "Path",
   "Dict", "Iterable", "List", "Optional", "plt", "np", "xr",
   "DEFAULT_VARIABLE", "DEFAULT_EXPERIMENTS", "BASE_DIR", "OUTPUT_DIR",
   "ALIASES", "TEMP_NAMES", "WIND_SPEED_NAMES", "WIND_U_ALIASES",
   "WIND_V_ALIASES", "COLORS", "AGG_METHODS", "open_dataset_maybe_zip",
   "find_file", "guess_lat_lon_dims", "spatial_mean", "annual_mean",
   "annual_sum", "get_agg_method", "monthly_aggregate",
   "monthly_climatology", "annual_aggregate", "format_label",
   "plot_monthly_climatology", "plot_annual_series",
   "plot_monthly_anomalies", "plot_annual_anomalies",
   "load_wind_direction", "plot_wind_rose", "compute_return_levels",
   "plot_return_levels", "parse_scenario_files", "parse_args",
   "load_series", "main"]

/-- Outcome of the return-level block of `main`. -/
inductive RLBlockOutcome
  /-- Variable not wind-speed: block skipped, no output, no warning. -/
  | skipped
  /-- An exception was raised inside the `try` and caught by the
  `except Exception` clause: a warning is printed, `return_levels`
  stays empty, and the run continues. -/
  | warned
  /-- The block ran to completion and filled `return_levels`. -/
  | computed
deriving DecidableEq, Repr

/-- The return-level block of `main`: entered only for wind-speed
variables; the call `annual_max(hist_series)` resolves the name
`annual_max`, raising `NameError` (caught as a warning) when the name is
not bound in the module. -/
def return_levels_block (varName : String) : RLBlockOutcome :=
  if WIND_SPEED_NAMES.contains varName then
    if analysisModuleNames.contains "annual_max" then .computed
    else .warned
  else .skipped

/-! ## File locator (`find_file` in `analysis.py`) -/

/-- A file of a folder, with its name and its modification time. -/
structure FileEntry where
  name : String
  mtime : Int
deriving DecidableEq, Repr

/-- An abstract filesystem: the folders that exist, each with its
files. -/
structure FS where
  folders : List (String × List FileEntry)
deriving DecidableEq, Repr

/-- One token of a glob pattern: a `*` wildcard or a literal piece. -/
inductive GlobTok
  | star
  | lit (s : String)
deriving DecidableEq, Repr

/-- One step of glob matching, on explicit fuel: `star` matches any
(possibly empty) run of characters, `lit` matches itself.  Every
recursive call strictly decreases `ps.length + cs.length`, so fuel
`ps.length + cs.length + 1` always suffices and the `0` case is never
reached from `globMatch`. -/
def globMatchF : Nat → List GlobTok → List Char → Bool
  | 0, _, _ => false
  | _ + 1, [], cs => cs.isEmpty
  | f + 1, .lit l :: ps, cs =>
    l.toList.isPrefixOf cs && globMatchF f ps (cs.drop l.toList.length)
  | _ + 1, [.star], _ => true
  | f + 1, .star :: ps, [] => globMatchF f ps []
  | f + 1, .star :: ps, c :: cs =>
    globMatchF f ps (c :: cs) || globMatchF f (.star :: ps) cs

/-- Glob matching of a token list against a file name. -/
def globMatch (ps : List GlobTok) (cs : List Char) : Bool :=
  globMatchF (ps.length + cs.length + 1) ps cs

/-- The four glob patterns of `find_file` (lines 77–82 of
`analysis.py`): experiment and variable in either order, `.nc` and
`.zip` extensions. -/
def findPatterns (experiment varName : String) : List (List GlobTok) :=
  [[.star, .lit experiment, .star, .lit varName, .star, .lit ".nc"],
   [.star, .lit varName, .star, .lit experiment, .star, .lit ".nc"],
   [.star, .lit experiment, .star, .lit varName, .star, .lit ".zip"],
   [.star, .lit varName, .star, .lit experiment, .star, .lit ".zip"]]

/-- The candidate list accumulated by `find_file`: for each pattern in
order, the folder entries matching it. -/
def candidatesIn (entries : List FileEntry) (experiment varName : String) :
    List FileEntry :=
  (findPatterns experiment varName).foldl
    (fun acc pat => acc ++ entries.filter (fun f => globMatch pat f.name.toList))
    []

/-- Descending modification-time order used to sort the candidates
(`key=mtime, reverse=True`). -/
def mtimeGe (a b : FileEntry) : Prop := b.mtime ≤ a.mtime

instance : DecidableRel mtimeGe := fun a b => inferInstanceAs (Decidable (b.mtime ≤ a.mtime))

instance : IsTotal FileEntry mtimeGe := ⟨fun a b => le_total b.mtime a.mtime⟩

instance : IsTrans FileEntry mtimeGe :=
  ⟨fun _ _ _ hab hbc => le_trans hbc hab⟩

/-- `find_file` (lines 71–92 of `analysis.py`): pick the experiment's
subdirectory (`historico` for `historical`, `projecao` otherwise);
return `none` when it does not exist or when no file matches any of the
four patterns; otherwise sort the candidates by modification time,
newest first, and return the first. -/
def find_file (fs : FS) (base experiment varName : String) :
    Option FileEntry :=
  let subdir := if experiment = "historical" then "historico" else "projecao"
  match fs.folders.lookup (base ++ "/" ++ subdir) with
  | none => none
  | some entries =>
    match candidatesIn entries experiment varName with
    | [] => none
    | c :: cs => ((c :: cs).insertionSort mtimeGe).head?

/-! ## Retrieval driver (`API.py`) -/

/-- `year_list` of `API.py`: `[str(y) for y in range(start, end + 1)]`. -/
def year_list (start stop : Int) : List String :=
  (List.range (stop + 1 - start).toNat).map
    (fun (i : Nat) => toString (start + (i : Int)))

/-- `output_dir_for_experiment` of `API.py`: `historico` for the
`historical` experiment, `projecao` for every other experiment. -/
def output_dir_for_experiment (baseDir experiment : String) : String :=
  baseDir ++ "/" ++ (if experiment = "historical" then "historico" else "projecao")

/-- The request dictionary built by `build_request` of `API.py`
(month and day lists are the fixed full-month/full-day lists). -/
structure Request where
  experiment : String
  varName : String
  model : String
  years : List String
deriving DecidableEq, Repr

/-- A retrieval call issued to the external client:
`client.retrieve(DATASET, request, str(target_file))`. -/
structure RetrieveCall where
  dataset : String
  request : Request
  target : String
deriving DecidableEq, Repr

/-- Python errors the retrieval driver can die with. -/
inductive PyErr
  /-- `IndexError`: `years[0]` on an empty year list. -/
  | indexError
deriving DecidableEq, Repr

/-- `download_one` of `API.py` (lines 55–67): build the target filename
`{experiment}_{variable}_{years[0]}-{years[-1]}_{model}.zip` — which
indexes `years[0]` and `years[-1]` and therefore raises `IndexError`
before any retrieval call when the year list is empty — then issue one
retrieval call for it. -/
def download_one (varName experiment : String) (years : List String)
    (model targetDir : String) : Except PyErr RetrieveCall :=
  match years with
  | [] => .error .indexError
  | y0 :: rest =>
    let yLast := List.getLast (y0 :: rest) (List.cons_ne_nil y0 rest)
    let target := targetDir ++ "/" ++ experiment ++ "_" ++ varName ++ "_"
      ++ y0 ++ "-" ++ yLast ++ "_" ++ model ++ ".zip"
    .ok { dataset := "projections-cmip6",
          request := { experiment := experiment, varName := varName,
                       model := model, years := years },
          target := target }

/-- The observable trace of a retrieval run: the calls issued to the
external service, the target files announced, and the error that halted
the run, if any. -/
structure DriverTrace where
  calls : List RetrieveCall
  files : List String
  err : Option PyErr
deriving DecidableEq, Repr

/-- The inner loop of `API.py`'s `main`: one `download_one` per
variable; an error halts the run immediately. -/
def runVars (experiment : String) (years : List String)
    (model targetDir : String) :
    List String → DriverTrace → DriverTrace
  | [], tr => tr
  | v :: vs, tr =>
    match download_one v experiment years model targetDir with
    | .error e => { tr with err := some e }
    | .ok call =>
      runVars experiment years model targetDir vs
        { tr with calls := tr.calls ++ [call],
                  files := tr.files ++ [call.target] }

/-- The outer loop of `API.py`'s `main`: for each experiment, select the
historical year range exactly when the experiment is `"historical"` and
the scenario range otherwise, pick the output subdirectory and run the
variable loop; stop at the first error. -/
def runExps (vars : List String) (histYears scenYears : List String)
    (model baseDir : String) :
    List String → DriverTrace → DriverTrace
  | [], tr => tr
  | e :: es, tr =>
    let years := if e = "historical" then histYears else scenYears
    let dir := output_dir_for_experiment baseDir e
    let tr' := runVars e years model dir vars tr
    match tr'.err with
    | some _ => tr'
    | none => runExps vars histYears scenYears model baseDir es tr'

/-- `main` of `API.py`, as the trace of the run. -/
def driver_main (vars experiments : List String)
    (histStart histEnd scenStart scenEnd : Int)
    (model baseDir : String) : DriverTrace :=
  runExps vars (year_list histStart histEnd)
    (year_list scenStart scenEnd) model baseDir experiments
    { calls := [], files := [], err := none }

/-- The target filename `download_one` constructs for a pair, given the
applicable year range. -/
def targetName (baseDir experiment varName : String) (start stop : Int)
    (model : String) : String :=
  output_dir_for_experiment baseDir experiment ++ "/" ++ experiment ++ "_"
    ++ varName ++ "_" ++ toString start ++ "-" ++ toString stop ++ "_"
    ++ model ++ ".zip"



/-! ## Theorems -/

/-- Claim C1 (code-bug evidence).  The claim says the analysis computes
return levels for wind-speed variables by fitting a GEV distribution to
annual maxima, with failures caught and reported as a warning.  The
failure handling is as claimed, but the computation itself can never
succeed: the block calls `annual_max`, a name bound nowhere in
`analysis.py`, so every wind-speed run raises `NameError` inside the
`try`, the `except Exception` clause prints the warning, `return_levels`
stays empty, and the run continues — return levels are never computed. -/
theorem return_levels_never_computed :
    return_levels_block "near_surface_wind_speed" = .warned ∧
    return_levels_block "sfcWind" = .warned ∧
    return_levels_block "wind_speed" = .warned ∧
    return_levels_block "wind" = .warned ∧
    return_levels_block "near_surface_air_temperature" = .skipped ∧
    analysisModuleNames.contains "annual_max" = false := by
  decide

theorem scan_scenarios_fst :
    ∀ scens : List (String × Option String),
      (scan_scenarios scens).1 =
        scens.filterMap (fun q => q.2.map (fun path => (q.1, path)))
  | [] => rfl
  | (e, some p) :: rest => by
    simp [scan_scenarios, scan_scenarios_fst rest]
  | (e, none) :: rest => by
    simp [scan_scenarios, scan_scenarios_fst rest]

theorem scan_scenarios_snd :
    ∀ scens : List (String × Option String),
      (scan_scenarios scens).2 =
        (scens.filter (fun q => q.2.isNone)).map (fun q => scenarioWarning q.1)
  | [] => rfl
  | (e, some p) :: rest => by
    simp [scan_scenarios, scan_scenarios_snd rest]
  | (e, none) :: rest => by
    simp [scan_scenarios, scan_scenarios_snd rest]

/-- Claim C3.  In the analysis run an absent historical file is fatal
(a missing-file error), while each absent scenario file only produces a
warning and is skipped, the loop continuing with the remaining
scenarios: the loaded scenarios are exactly those with a file, in
order, and the warnings are exactly those for the absent ones.  (When
every scenario file is absent the run subsequently fails with a
missing-file error of its own, per line 410.) -/
theorem resolve_inputs_spec (scens : List (String × Option String)) :
    resolve_inputs none scens = .error .histNotFound ∧
    (scan_scenarios scens).1 =
      scens.filterMap (fun q => q.2.map (fun path => (q.1, path))) ∧
    (scan_scenarios scens).2 =
      (scens.filter (fun q => q.2.isNone)).map (fun q => scenarioWarning q.1) ∧
    (∀ histPath, (scan_scenarios scens).1 = [] →
      resolve_inputs (some histPath) scens = .error .noScenario) ∧
    (∀ histPath, (scan_scenarios scens).1 ≠ [] →
      resolve_inputs (some histPath) scens = .ok (scan_scenarios scens)) := by
  refine ⟨rfl, scan_scenarios_fst scens, scan_scenarios_snd scens, ?_, ?_⟩
  · intro histPath h
    simp [resolve_inputs, h]
  · intro histPath h
    simp [resolve_inputs, h]

/-- Witness for C3 at a concrete input: the historical file present, the
first scenario file absent (warned and skipped), the second present
(still loaded). -/
theorem resolve_inputs_spec_witness :
    resolve_inputs none [("ssp1_2_6", none), ("ssp5_8_5", some "b.nc")]
      = .error .histNotFound ∧
    (scan_scenarios [("ssp1_2_6", none), ("ssp5_8_5", some "b.nc")]).1 ≠ [] ∧
    resolve_inputs (some "h.nc") [("ssp1_2_6", none), ("ssp5_8_5", some "b.nc")]
      = .ok ([("ssp5_8_5", "b.nc")], [scenarioWarning "ssp1_2_6"]) := by
  refine ⟨(resolve_inputs_spec _).1, by decide, ?_⟩
  exact (resolve_inputs_spec [("ssp1_2_6", none), ("ssp5_8_5", some "b.nc")]).2.2.2.2
    "h.nc" (by decide)

/-- Claim C5.  For a temperature-like resolved variable whose units
attribute is Kelvin-like, `load_series` subtracts exactly 273.15 from
every value and rewrites the units attribute to `"degC"`; `"degC"` is
not Kelvin-like, so re-applying the conversion rule changes nothing and
the units attribute flips from Kelvin-like to `"degC"` exactly once. -/
theorem convert_temperature_spec (varName targetVar : String) (da : Var)
    (hT : TEMP_NAMES.contains targetVar = true)
    (hK : kelvinLike da.units = true) :
    (convert_temperature varName targetVar da).values
      = da.values.map (fun x => x - 273.15) ∧
    (convert_temperature varName targetVar da).units = some "degC" ∧
    kelvinLike (some "degC") = false ∧
    convert_temperature varName targetVar
        (convert_temperature varName targetVar da)
      = convert_temperature varName targetVar da := by
  have hcond : (TEMP_NAMES.contains varName || TEMP_NAMES.contains targetVar) = true := by
    rw [hT]; simp
  have hconv : convert_temperature varName targetVar da
      = { da with values := da.values.map (fun x => x - 273.15),
                  units := some "degC" } := by
    rw [convert_temperature, if_pos hcond, if_pos hK]
  have hdegc : kelvinLike (some "degC") = false := by decide
  refine ⟨by rw [hconv], by rw [hconv], hdegc, ?_⟩
  rw [hconv, convert_temperature, if_pos hcond, if_neg]
  simp [hdegc]

/-- Witness for C5 at a concrete input: a Kelvin `tas` variable with one
value 300 K becomes 26.85 °C with units `"degC"`, and converting again
changes nothing. -/
theorem convert_temperature_spec_witness :
    TEMP_NAMES.contains "tas" = true ∧
    kelvinLike (some "K") = true ∧
    (convert_temperature "near_surface_air_temperature" "tas"
        ⟨"tas", [300], some "K"⟩).values = [300 - 273.15] ∧
    convert_temperature "near_surface_air_temperature" "tas"
        (convert_temperature "near_surface_air_temperature" "tas"
          ⟨"tas", [300], some "K"⟩)
      = convert_temperature "near_surface_air_temperature" "tas"
          ⟨"tas", [300], some "K"⟩ := by
  refine ⟨by decide, by decide, ?_, ?_⟩
  · rw [(convert_temperature_spec "near_surface_air_temperature" "tas"
      ⟨"tas", [300], some "K"⟩ (by decide) (by decide)).1]
    simp
  · exact (convert_temperature_spec "near_surface_air_temperature" "tas"
      ⟨"tas", [300], some "K"⟩ (by decide) (by decide)).2.2.2

/-- Claim C6.  `compute_return_levels` fails with the "series too short"
condition for every input with fewer than 5 finite values; for every
input with at least 5 finite values it succeeds, the result keys are
exactly the requested return periods (one entry per distinct requested
period), and each level is the fitted distribution's inverse CDF
evaluated at `1 - 1/period`. -/
theorem compute_return_levels_spec (fit : List ℚ → GEVParams)
    (ppf : ℚ → GEVParams → ℚ) (data : List (Option ℚ))
    (periods : List Int) :
    ((data.filterMap id).length < 5 →
      compute_return_levels fit ppf data periods
        = .error "Série muito curta para estimar extremos.") ∧
    (5 ≤ (data.filterMap id).length →
      ∃ levels, compute_return_levels fit ppf data periods = .ok levels ∧
        (levels.map Prod.fst).Nodup ∧
        (∀ p, p ∈ levels.map Prod.fst ↔ p ∈ periods) ∧
        ∀ p lv, (p, lv) ∈ levels →
          lv = ppf (1 - 1 / (p : ℚ)) (fit (data.filterMap id))) := by
  constructor
  · intro h
    rw [compute_return_levels, if_pos h]
  · intro h
    refine ⟨(firstDedup periods).map
      (fun p => (p, ppf (1 - 1 / (p : ℚ)) (fit (data.filterMap id)))),
      ?_, ?_, ?_, ?_⟩
    · rw [compute_return_levels, if_neg (not_lt.2 h)]
    · rw [List.map_map]
      have : (Prod.fst ∘ fun p : Int =>
          (p, ppf (1 - 1 / (p : ℚ)) (fit (data.filterMap id)))) = id := rfl
      rw [this, List.map_id]
      exact nodup_firstDedup periods
    · intro p
      rw [List.map_map]
      have : (Prod.fst ∘ fun p : Int =>
          (p, ppf (1 - 1 / (p : ℚ)) (fit (data.filterMap id)))) = id := rfl
      rw [this, List.map_id]
      exact mem_firstDedup
    · intro p lv hmem
      obtain ⟨q, _, heq⟩ := List.mem_map.1 hmem
      obtain ⟨h1, h2⟩ := Prod.mk.injEq .. ▸ heq
      exact h1 ▸ h2.symm

/-- Witness for C6 at concrete inputs: with 4 finite values the
computation fails with the "series too short" error; with 5 finite
values and periods 10, 20, 50 it succeeds with one level per period. -/
theorem compute_return_levels_spec_witness :
    (([some 1, none, some 2, some 3, some 4] : List (Option ℚ)).filterMap
        id).length < 5 ∧
    compute_return_levels (fun _ => ⟨0, 0, 0⟩) (fun q _ => q)
        [some 1, none, some 2, some 3, some 4] [10, 20, 50]
      = .error "Série muito curta para estimar extremos." ∧
    5 ≤ (([some 1, some 2, some 3, some 4, some 5] :
        List (Option ℚ)).filterMap id).length ∧
    ∃ levels,
      compute_return_levels (fun _ => ⟨0, 0, 0⟩) (fun q _ => q)
          [some 1, some 2, some 3, some 4, some 5] [10, 20, 50]
        = .ok levels ∧
      (levels.map Prod.fst).Nodup ∧
      (∀ p, p ∈ levels.map Prod.fst ↔ p ∈ [10, 20, 50]) ∧
      ∀ p lv, (p, lv) ∈ levels →
        lv = (fun q _ => q) (1 - 1 / (p : ℚ))
          ((fun _ => GEVParams.mk 0 0 0)
            (([some 1, some 2, some 3, some 4, some 5] :
              List (Option ℚ)).filterMap id)) := by
  refine ⟨by decide, ?_, by decide, ?_⟩
  · exact (compute_return_levels_spec (fun _ => ⟨0, 0, 0⟩) (fun q _ => q)
      [some 1, none, some 2, some 3, some 4] [10, 20, 50]).1 (by decide)
  · exact (compute_return_levels_spec (fun _ => ⟨0, 0, 0⟩) (fun q _ => q)
      [some 1, some 2, some 3, some 4, some 5] [10, 20, 50]).2 (by decide)

theorem sum_map_sub_const (l : List ℚ) (c : ℚ) :
    (l.map (fun x => x - c)).sum = l.sum - l.length * c := by
  induction l with
  | nil => simp
  | cons a l ih =>
    simp only [List.map_cons, List.sum_cons, ih, List.length_cons]
    push_cast
    ring

theorem sum_map_sub_meanQ (l : List ℚ) (h : l ≠ []) :
    (l.map (fun x => x - meanQ l)).sum = 0 := by
  have hlen : (l.length : ℚ) ≠ 0 :=
    Nat.cast_ne_zero.2 (List.length_pos.2 h).ne'
  rw [sum_map_sub_const, meanQ, mul_comm, div_mul_cancel₀ _ hlen, sub_self]

theorem sum_of_const (c : ℚ) :
    ∀ l : List ℚ, (∀ x ∈ l, x = c) → l.sum = l.length * c
  | [], _ => by simp
  | a :: l, hall => by
    have ha : a = c := hall a (List.mem_cons_self a l)
    have hl := sum_of_const c l (fun x hx => hall x (List.mem_cons_of_mem a hx))
    simp only [List.sum_cons, List.length_cons, hl, ha]
    push_cast
    ring

theorem meanQ_const (l : List ℚ) (c : ℚ) (h : l ≠ [])
    (hall : ∀ x ∈ l, x = c) : meanQ l = c := by
  have hlen : (l.length : ℚ) ≠ 0 :=
    Nat.cast_ne_zero.2 (List.length_pos.2 h).ne'
  rw [meanQ, sum_of_const c l hall, mul_comm, mul_div_assoc, div_self hlen,
    mul_one]

/-- Claim C2, counterexample.  The claim says the annual anomaly of a
scenario identical to the historical series is zero for every year; but
the anomaly subtracts the scalar historical annual mean from the annual
series, so any non-constant historical series refutes it: with annual
values 0 (year 2000) and 2 (year 2001) the mean is 1 and the anomalies
are −1 and 1. -/
theorem annual_anomaly_identical_not_zero :
    ¬ (∀ p ∈ annual_anomaly (get_agg_method "near_surface_air_temperature")
        [Obs.mk 2000 1 0, Obs.mk 2001 1 2]
        [Obs.mk 2000 1 0, Obs.mk 2001 1 2], p.2 = 0) := by
  intro hall
  have := hall (2000, -1) (by
    norm_num [annual_anomaly, annual_aggregate, annualMeanScalar, yearsOf,
      firstDedup, firstDedupAux, yearValues, aggBy, meanQ, List.filter,
      get_agg_method, AGG_METHODS])
  norm_num at this

/-- Claim C2 as amended.  For a scenario identical to the historical
series the annual anomaly equals the historical annual series minus the
scalar historical annual mean; consequently the anomalies sum to zero
across years (they are zero on average), and they are zero for every
year when the historical annual series is constant across years — but
not in general. -/
theorem annual_anomaly_identical_spec (method : String) (h : List Obs)
    (hne : h ≠ []) :
    annual_anomaly method h h
      = (annual_aggregate method h).map
          (fun p => (p.1, p.2 - annualMeanScalar method h)) ∧
    ((annual_anomaly method h h).map (fun p => p.2)).sum = 0 ∧
    (∀ c, (∀ p ∈ annual_aggregate method h, p.2 = c) →
      ∀ q ∈ annual_anomaly method h h, q.2 = 0) := by
  have hyears : yearsOf h ≠ [] := by
    apply firstDedup_ne_nil
    simpa using hne
  have hagg : (annual_aggregate method h).map (fun p => p.2) ≠ [] := by
    simp only [ne_eq, List.map_eq_nil_iff, annual_aggregate]
    simpa using hyears
  refine ⟨rfl, ?_, ?_⟩
  · have hrw : (annual_anomaly method h h).map (fun p => p.2)
        = ((annual_aggregate method h).map (fun p => p.2)).map
            (fun x => x - annualMeanScalar method h) := by
      simp [annual_anomaly, List.map_map]
    have hms : annualMeanScalar method h
        = meanQ ((annual_aggregate method h).map (fun p => p.2)) := rfl
    rw [hrw, hms]
    exact sum_map_sub_meanQ _ hagg
  · intro c hc q hq
    obtain ⟨p, hp, rfl⟩ := List.mem_map.1 hq
    have hm : annualMeanScalar method h = c := by
      have hms : annualMeanScalar method h
          = meanQ ((annual_aggregate method h).map (fun p => p.2)) := rfl
      rw [hms]
      refine meanQ_const _ _ hagg ?_
      intro x hx
      obtain ⟨p', hp', rfl⟩ := List.mem_map.1 hx
      exact hc p' hp'
    simp [hm, hc p hp]

/-- Witness for C2 (amended) at a concrete input: a constant identical
series, whose annual anomalies sum to zero. -/
theorem annual_anomaly_identical_spec_witness :
    ([Obs.mk 2000 1 5, Obs.mk 2001 1 5] : List Obs) ≠ [] ∧
    ((annual_anomaly "mean" [Obs.mk 2000 1 5, Obs.mk 2001 1 5]
        [Obs.mk 2000 1 5, Obs.mk 2001 1 5]).map (fun p => p.2)).sum = 0 := by
  exact ⟨by decide,
    (annual_anomaly_identical_spec "mean"
      [Obs.mk 2000 1 5, Obs.mk 2001 1 5] (by decide)).2.1⟩

/-- The data variable `load_series` goes on to extract after resolution
(`ds[target_var]`). -/
def load_variable (ds : Dataset) (varName : String) :
    Except AnalysisError (Option Var) :=
  (resolve_variable ds varName).map (dsGet ds)

theorem find?_eq_of_unique {α : Type} (p : α → Bool) :
    ∀ (l : List α) (a : α), a ∈ l → p a = true →
      (∀ b ∈ l, p b = true → b = a) → l.find? p = some a
  | [], a, ha, _, _ => absurd ha (List.not_mem_nil a)
  | b :: l, a, ha, hpa, huniq => by
    by_cases hpb : p b = true
    · have hba : b = a := huniq b (List.mem_cons_self b l) hpb
      rw [List.find?_cons_of_pos _ hpb, hba]
    · have hab : a ≠ b := fun habs => hpb (habs ▸ hpa)
      have ha' : a ∈ l := by
        rcases List.mem_cons.1 ha with rfl | hmem
        · exact absurd rfl hab
        · exact hmem
      rw [List.find?_cons_of_neg _ hpb]
      exact find?_eq_of_unique p l a ha' hpa
        (fun c hc hpc => huniq c (List.mem_cons_of_mem b hc) hpc)

/-- Claim C4.  Variable resolution in `load_series` tries the literal
requested name first, then the alias list (first present alias wins),
then — only when the dataset has exactly one data variable — that
variable, and otherwise fails with a variable-not-found error listing
the available data-variable names.  When the variable is present under
exactly one of its aliases, resolution succeeds with that alias, so the
extracted data is the same as looking that alias up directly. -/
theorem resolve_variable_spec (ds : Dataset) (varName : String) :
    (dsContains ds varName = true →
      resolve_variable ds varName = .ok varName) ∧
    (dsContains ds varName = false →
      ∀ a, (aliasesFor varName).find? (fun x => dsContains ds x) = some a →
        resolve_variable ds varName = .ok a) ∧
    (dsContains ds varName = false →
      (∀ a ∈ aliasesFor varName, dsContains ds a = false) →
      ∀ v, ds.data_vars = [v] → resolve_variable ds varName = .ok v.name) ∧
    (dsContains ds varName = false →
      (∀ a ∈ aliasesFor varName, dsContains ds a = false) →
      ds.data_vars.length ≠ 1 →
      resolve_variable ds varName
        = .error (.varNotFound varName (ds.data_vars.map (·.name)))) ∧
    (dsContains ds varName = false →
      ∀ a ∈ aliasesFor varName, dsContains ds a = true →
        (∀ b ∈ aliasesFor varName, dsContains ds b = true → b = a) →
        resolve_variable ds varName = .ok a ∧
        load_variable ds varName = .ok (dsGet ds a)) := by
  have hfind_none : (∀ a ∈ aliasesFor varName, dsContains ds a = false) →
      (aliasesFor varName).find? (fun x => dsContains ds x) = none := by
    intro hall
    exact List.find?_eq_none.2 (fun x hx => by simp [hall x hx])
  refine ⟨?_, ?_, ?_, ?_, ?_⟩
  · intro h
    rw [resolve_variable, if_pos h]
  · intro h a hfind
    rw [resolve_variable, if_neg (by simp [h]), hfind]
  · intro h hall v hv
    rw [resolve_variable, if_neg (by simp [h]), hfind_none hall, hv]
  · intro h hall hlen
    rcases hdv : ds.data_vars with _ | ⟨v, _ | ⟨w, rest⟩⟩
    · rw [resolve_variable, if_neg (by simp [h]), hfind_none hall, hdv]
    · exact absurd (by simp [hdv]) hlen
    · rw [resolve_variable, if_neg (by simp [h]), hfind_none hall, hdv]
  · intro h a hmem hpres huniq
    have hfind : (aliasesFor varName).find? (fun x => dsContains ds x)
        = some a :=
      find?_eq_of_unique _ _ a hmem hpres huniq
    have hres : resolve_variable ds varName = .ok a := by
      rw [resolve_variable, if_neg (by simp [h]), hfind]
    exact ⟨hres, by rw [load_variable, hres]; rfl⟩

/-- Witness for C4 at a concrete input: the requested canonical name
`near_surface_air_temperature` is absent, its alias `tas` is the only
present alias, resolution yields `tas` and the extracted variable is the
direct lookup of `tas`. -/
theorem resolve_variable_spec_witness :
    dsContains ⟨[⟨"tas", [1, 2], some "K"⟩], []⟩
      "near_surface_air_temperature" = false ∧
    "tas" ∈ aliasesFor "near_surface_air_temperature" ∧
    dsContains ⟨[⟨"tas", [1, 2], some "K"⟩], []⟩ "tas" = true ∧
    resolve_variable ⟨[⟨"tas", [1, 2], some "K"⟩], []⟩
      "near_surface_air_temperature" = .ok "tas" ∧
    load_variable ⟨[⟨"tas", [1, 2], some "K"⟩], []⟩
        "near_surface_air_temperature"
      = .ok (dsGet ⟨[⟨"tas", [1, 2], some "K"⟩], []⟩ "tas") := by
  refine ⟨by decide, by decide, by decide, ?_⟩
  exact (resolve_variable_spec ⟨[⟨"tas", [1, 2], some "K"⟩], []⟩
    "near_surface_air_temperature").2.2.2.2 (by decide) "tas" (by decide)
    (by decide) (by decide)

/-- Claim C8.  `find_file` returns `none` (not an error) when the
experiment's subdirectory does not exist and when no file matches any of
the four glob patterns; when candidates exist it returns one of them
whose modification time is greatest. -/
theorem find_file_spec (fs : FS) (base experiment varName : String) :
    (fs.folders.lookup (base ++ "/" ++
        (if experiment = "historical" then "historico" else "projecao"))
      = none → find_file fs base experiment varName = none) ∧
    (∀ entries, fs.folders.lookup (base ++ "/" ++
        (if experiment = "historical" then "historico" else "projecao"))
      = some entries →
      (candidatesIn entries experiment varName = [] →
        find_file fs base experiment varName = none) ∧
      (candidatesIn entries experiment varName ≠ [] →
        ∃ f, find_file fs base experiment varName = some f ∧
          f ∈ candidatesIn entries experiment varName ∧
          ∀ g ∈ candidatesIn entries experiment varName,
            g.mtime ≤ f.mtime)) := by
  constructor
  · intro h
    simp only [find_file, h]
  · intro entries h
    constructor
    · intro hcand
      simp only [find_file, h, hcand]
    · intro hcand
      rcases hc : candidatesIn entries experiment varName with _ | ⟨c, cs⟩
      · exact absurd hc hcand
      have hperm := List.perm_insertionSort mtimeGe (c :: cs)
      have hsorted := List.sorted_insertionSort mtimeGe (c :: cs)
      rcases hs : (c :: cs).insertionSort mtimeGe with _ | ⟨f, rest⟩
      · rw [hs] at hperm
        exact absurd hperm.length_eq (by simp)
      rw [hs] at hperm hsorted
      refine ⟨f, ?_, ?_, ?_⟩
      · simp only [find_file, h, hc, hs, List.head?_cons]
      · exact hperm.mem_iff.1 (List.mem_cons_self f rest)
      · intro g hg
        rcases List.mem_cons.1 (hperm.mem_iff.2 hg) with rfl | hg'
        · exact le_refl _
        · exact List.rel_of_sorted_cons hsorted g hg'

/-- Witness for C8 at a concrete input: two files match the patterns for
experiment `historical` and variable `tas`; the returned file has the
greatest modification time. -/
theorem find_file_spec_witness :
    (FS.mk [("date/historico",
        [⟨"historical_tas_a.nc", 5⟩, ⟨"historical_tas_b.nc", 9⟩])]).folders.lookup
        ("date" ++ "/" ++
          (if "historical" = "historical" then "historico" else "projecao"))
      = some [⟨"historical_tas_a.nc", 5⟩, ⟨"historical_tas_b.nc", 9⟩] ∧
    candidatesIn [⟨"historical_tas_a.nc", 5⟩, ⟨"historical_tas_b.nc", 9⟩]
      "historical" "tas" ≠ [] ∧
    ∃ f, find_file
        ⟨[("date/historico",
          [⟨"historical_tas_a.nc", 5⟩, ⟨"historical_tas_b.nc", 9⟩])]⟩
        "date" "historical" "tas" = some f ∧
      f ∈ candidatesIn [⟨"historical_tas_a.nc", 5⟩, ⟨"historical_tas_b.nc", 9⟩]
        "historical" "tas" ∧
      ∀ g ∈ candidatesIn [⟨"historical_tas_a.nc", 5⟩, ⟨"historical_tas_b.nc", 9⟩]
        "historical" "tas", g.mtime ≤ f.mtime := by
  refine ⟨by decide, by decide, ?_⟩
  exact ((find_file_spec
    ⟨[("date/historico",
      [⟨"historical_tas_a.nc", 5⟩, ⟨"historical_tas_b.nc", 9⟩])]⟩
    "date" "historical" "tas").2
    [⟨"historical_tas_a.nc", 5⟩, ⟨"historical_tas_b.nc", 9⟩]
    (by decide)).2 (by decide)

theorem year_list_length_of_le (s e : Int) (h : s ≤ e) :
    ((year_list s e).length : Int) = e - s + 1 := by
  rw [year_list, List.length_map, List.length_range]
  omega

theorem year_list_getElem (s e : Int) (i : Nat)
    (hi : i < (year_list s e).length) :
    (year_list s e)[i] = toString (s + (i : Int)) := by
  simp only [year_list, List.getElem_map, List.getElem_range]

theorem year_list_nil_of_lt (s e : Int) (h : e < s) : year_list s e = [] := by
  have h0 : (e + 1 - s).toNat = 0 := by omega
  rw [year_list, h0]
  rfl

theorem year_list_head?_eq (s e : Int) (h : s ≤ e) :
    (year_list s e).head? = some (toString s) := by
  have hn : (e + 1 - s).toNat = (e - s).toNat + 1 := by omega
  rw [year_list, hn, List.range_succ_eq_map]
  simp

theorem year_list_getLast?_eq (s e : Int) (h : s ≤ e) :
    (year_list s e).getLast? = some (toString e) := by
  have hn : (e + 1 - s).toNat = (e - s).toNat + 1 := by omega
  rw [year_list, hn, List.range_succ, List.map_append, List.map_singleton,
    List.getLast?_concat]
  congr 2
  omega

theorem download_one_cons (v ex model dir y0 : String) (rest : List String) :
    download_one v ex (y0 :: rest) model dir
      = .ok { dataset := "projections-cmip6",
              request := { experiment := ex, varName := v, model := model,
                           years := y0 :: rest },
              target := dir ++ "/" ++ ex ++ "_" ++ v ++ "_" ++ y0 ++ "-"
                ++ (y0 :: rest).getLast (List.cons_ne_nil y0 rest) ++ "_"
                ++ model ++ ".zip" } := rfl

theorem download_one_year_list (v ex model dir : String) (s e : Int)
    (h : s ≤ e) :
    download_one v ex (year_list s e) model dir
      = .ok { dataset := "projections-cmip6",
              request := { experiment := ex, varName := v, model := model,
                           years := year_list s e },
              target := dir ++ "/" ++ ex ++ "_" ++ v ++ "_" ++ toString s
                ++ "-" ++ toString e ++ "_" ++ model ++ ".zip" } := by
  rcases hy : year_list s e with _ | ⟨y0, rest⟩
  · have hh := year_list_head?_eq s e h
    rw [hy] at hh
    simp at hh
  · have hh := year_list_head?_eq s e h
    rw [hy, List.head?_cons] at hh
    have h0 : y0 = toString s := Option.some_inj.1 hh
    have hl := year_list_getLast?_eq s e h
    rw [hy, List.getLast?_eq_getLast (y0 :: rest) (List.cons_ne_nil y0 rest)]
      at hl
    have hlast : (y0 :: rest).getLast (List.cons_ne_nil y0 rest)
        = toString e := Option.some_inj.1 hl
    rw [download_one_cons, hlast, h0]

theorem runVars_year_list (ex model dir : String) (s e : Int) (h : s ≤ e) :
    ∀ (vs : List String) (tr : DriverTrace),
      runVars ex (year_list s e) model dir vs tr
        = { calls := tr.calls ++ vs.map (fun v =>
              { dataset := "projections-cmip6",
                request := { experiment := ex, varName := v, model := model,
                             years := year_list s e },
                target := dir ++ "/" ++ ex ++ "_" ++ v ++ "_" ++ toString s
                  ++ "-" ++ toString e ++ "_" ++ model ++ ".zip" }),
            files := tr.files ++ vs.map (fun v =>
              dir ++ "/" ++ ex ++ "_" ++ v ++ "_" ++ toString s ++ "-"
                ++ toString e ++ "_" ++ model ++ ".zip"),
            err := tr.err }
  | [], tr => by simp [runVars]
  | v :: vs, tr => by
    simp only [runVars, download_one_year_list v ex model dir s e h]
    rw [runVars_year_list ex model dir s e h vs]
    simp [List.append_assoc]

theorem runExps_year_list (vars : List String) (hS hE sS sE : Int)
    (model base : String) (h1 : hS ≤ hE) (h2 : sS ≤ sE) :
    ∀ (exps : List String) (tr : DriverTrace), tr.err = none →
      runExps vars (year_list hS hE) (year_list sS sE) model base exps tr
        = { calls := tr.calls ++ exps.flatMap (fun ex => vars.map (fun v =>
              { dataset := "projections-cmip6",
                request := { experiment := ex, varName := v, model := model,
                             years := if ex = "historical"
                               then year_list hS hE else year_list sS sE },
                target := targetName base ex v
                  (if ex = "historical" then hS else sS)
                  (if ex = "historical" then hE else sE) model })),
            files := tr.files ++ exps.flatMap (fun ex => vars.map (fun v =>
              targetName base ex v (if ex = "historical" then hS else sS)
                (if ex = "historical" then hE else sE) model)),
            err := none }
  | [], tr => fun htr => by
    obtain ⟨calls, files, err⟩ := tr
    cases htr
    simp [runExps]
  | e :: es, tr => fun htr => by
    by_cases he : e = "historical"
    · simp only [runExps, if_pos he,
        runVars_year_list e model (output_dir_for_experiment base e) hS hE h1
          vars tr, htr]
      rw [runExps_year_list vars hS hE sS sE model base h1 h2 es _ rfl]
      simp [he, targetName, List.append_assoc]
    · simp only [runExps, if_neg he,
        runVars_year_list e model (output_dir_for_experiment base e) sS sE h2
          vars tr, htr]
      rw [runExps_year_list vars hS hE sS sE model base h1 h2 es _ rfl]
      simp [he, targetName, List.append_assoc]

theorem length_flatMap_const {α γ : Type} (l : List α) (g : α → List γ)
    (n : Nat) (h : ∀ a, (g a).length = n) :
    (l.flatMap g).length = l.length * n := by
  induction l with
  | nil => simp
  | cons a l ih =>
    simp [List.flatMap_cons, ih, h a]
    ring

/-- Claim C9.  For each experiment the retrieval driver selects the
historical year range exactly when the experiment is `"historical"` and
the scenario range otherwise, writes into subdirectory `historico` for
`"historical"` and `projecao` for every other experiment, and produces
exactly one target file per (experiment, variable) pair, named by
concatenating experiment, variable, first and last year, and model. -/
theorem driver_spec (vars exps : List String) (hS hE sS sE : Int)
    (model base : String) (h1 : hS ≤ hE) (h2 : sS ≤ sE) :
    output_dir_for_experiment base "historical" = base ++ "/" ++ "historico" ∧
    (∀ ex, ex ≠ "historical" →
      output_dir_for_experiment base ex = base ++ "/" ++ "projecao") ∧
    (driver_main vars exps hS hE sS sE model base).err = none ∧
    (driver_main vars exps hS hE sS sE model base).calls
      = exps.flatMap (fun ex => vars.map (fun v =>
          { dataset := "projections-cmip6",
            request := { experiment := ex, varName := v, model := model,
                         years := if ex = "historical"
                           then year_list hS hE else year_list sS sE },
            target := targetName base ex v
              (if ex = "historical" then hS else sS)
              (if ex = "historical" then hE else sE) model })) ∧
    (driver_main vars exps hS hE sS sE model base).files
      = exps.flatMap (fun ex => vars.map (fun v =>
          targetName base ex v (if ex = "historical" then hS else sS)
            (if ex = "historical" then hE else sE) model)) ∧
    (driver_main vars exps hS hE sS sE model base).calls.length
      = exps.length * vars.length := by
  have hrun := runExps_year_list vars hS hE sS sE model base h1 h2 exps
    { calls := [], files := [], err := none } rfl
  refine ⟨by simp [output_dir_for_experiment], ?_, ?_, ?_, ?_, ?_⟩
  · intro ex hex
    simp [output_dir_for_experiment, hex]
  · rw [driver_main, hrun]
  · rw [driver_main, hrun]
    simp
  · rw [driver_main, hrun]
    simp
  · rw [driver_main, hrun]
    simp only [List.nil_append]
    exact length_flatMap_const exps _ vars.length (fun a => by simp)

/-- Witness for C9 at a concrete input: one variable, the historical
experiment plus one scenario, year ranges 1980–1981 and 2015–2016. -/
theorem driver_spec_witness :
    (1980 : Int) ≤ 1981 ∧ (2015 : Int) ≤ 2016 ∧
    (driver_main ["near_surface_air_temperature"] ["historical", "ssp1_2_6"]
      1980 1981 2015 2016 "ipsl_cm6a_lr" "date").err = none ∧
    (driver_main ["near_surface_air_temperature"] ["historical", "ssp1_2_6"]
      1980 1981 2015 2016 "ipsl_cm6a_lr" "date").files
      = ["date/historico/historical_near_surface_air_temperature_1980-1981_ipsl_cm6a_lr.zip",
         "date/projecao/ssp1_2_6_near_surface_air_temperature_2015-2016_ipsl_cm6a_lr.zip"] ∧
    (driver_main ["near_surface_air_temperature"] ["historical", "ssp1_2_6"]
      1980 1981 2015 2016 "ipsl_cm6a_lr" "date").calls.length = 2 * 1 := by
  refine ⟨by decide, by decide, ?_, by decide, ?_⟩
  · exact (driver_spec ["near_surface_air_temperature"]
      ["historical", "ssp1_2_6"] 1980 1981 2015 2016 "ipsl_cm6a_lr" "date"
      (by decide) (by decide)).2.2.1
  · exact (driver_spec ["near_surface_air_temperature"]
      ["historical", "ssp1_2_6"] 1980 1981 2015 2016 "ipsl_cm6a_lr" "date"
      (by decide) (by decide)).2.2.2.2.2

/-- Claim C10.  For start ≤ end, `year_list` returns exactly
end − start + 1 year strings, the i-th being `str(start + i)` (so the
years are in increasing order); for start > end it returns the empty
list; `download_one` on an empty year list fails with `IndexError`
while building the filename, before issuing its retrieval call; hence a
retrieval run whose start years exceed its end years halts on the very
first (experiment, variable) pair with no retrieval call issued. -/
theorem year_list_empty_halts_run :
    (∀ s e : Int, s ≤ e →
      ((year_list s e).length : Int) = e - s + 1 ∧
      ∀ i : Nat, ∀ hi : i < (year_list s e).length,
        (year_list s e)[i] = toString (s + (i : Int))) ∧
    (∀ s e : Int, e < s → year_list s e = []) ∧
    (∀ v ex model dir : String,
      download_one v ex [] model dir = .error .indexError) ∧
    (∀ (vars exps : List String) (hS hE sS sE : Int) (model base : String),
      hE < hS → sE < sS → vars ≠ [] → exps ≠ [] →
      (driver_main vars exps hS hE sS sE model base).err
        = some .indexError ∧
      (driver_main vars exps hS hE sS sE model base).calls = []) := by
  refine ⟨fun s e h => ⟨year_list_length_of_le s e h,
      fun i hi => year_list_getElem s e i hi⟩,
    fun s e h => year_list_nil_of_lt s e h,
    fun v ex model dir => rfl, ?_⟩
  intro vars exps hS hE sS sE model base hh hs hv he
  rcases exps with _ | ⟨e, es⟩
  · exact absurd rfl he
  rcases vars with _ | ⟨v, vs⟩
  · exact absurd rfl hv
  rw [driver_main, year_list_nil_of_lt hS hE hh, year_list_nil_of_lt sS sE hs]
  simp [runExps, runVars, download_one]

/-- Witness for C10 at concrete inputs: the 1980–1982 list has 3 years
with `"1981"` in the middle; an inverted range yields the empty list; a
run with both ranges inverted stops with an index error and issues no
retrieval call. -/
theorem year_list_empty_halts_run_witness :
    (1980 : Int) ≤ 1982 ∧
    ((year_list 1980 1982).length : Int) = 1982 - 1980 + 1 ∧
    year_list 1985 1980 = [] ∧
    download_one "near_surface_air_temperature" "historical" []
      "ipsl_cm6a_lr" "date/historico" = .error .indexError ∧
    (driver_main ["near_surface_air_temperature"] ["historical", "ssp1_2_6"]
      1981 1980 2016 2015 "ipsl_cm6a_lr" "date").err = some .indexError ∧
    (driver_main ["near_surface_air_temperature"] ["historical", "ssp1_2_6"]
      1981 1980 2016 2015 "ipsl_cm6a_lr" "date").calls = [] := by
  refine ⟨by decide,
    (year_list_empty_halts_run.1 1980 1982 (by decide)).1,
    year_list_empty_halts_run.2.1 1985 1980 (by decide),
    year_list_empty_halts_run.2.2.1 "near_surface_air_temperature"
      "historical" "ipsl_cm6a_lr" "date/historico", ?_, ?_⟩
  · exact (year_list_empty_halts_run.2.2.2 ["near_surface_air_temperature"]
      ["historical", "ssp1_2_6"] 1981 1980 2016 2015 "ipsl_cm6a_lr" "date"
      (by decide) (by decide) (by decide) (by decide)).1
  · exact (year_list_empty_halts_run.2.2.2 ["near_surface_air_temperature"]
      ["historical", "ssp1_2_6"] 1981 1980 2016 2015 "ipsl_cm6a_lr" "date"
      (by decide) (by decide) (by decide) (by decide)).2

theorem meanQ_perm {l1 l2 : List ℚ} (h : l1.Perm l2) : meanQ l1 = meanQ l2 := by
  rw [meanQ, meanQ, h.sum_eq, h.length_eq]

theorem climatology_month_value (method : String) (s : List Obs) (m : Nat)
    (hfull : ∀ y ∈ yearsOf s, (y, m) ∈ ymOf s) :
    meanQ (((monthly_aggregate method s).filter
        (fun p => p.1.2 = m)).map (fun p => p.2))
      = meanQ ((yearsOf s).map (fun y => aggBy method (valuesAt s y m))) := by
  have hperm : (((ymOf s).filter (fun k => k.2 = m)).map Prod.fst).Perm
      (yearsOf s) := by
    apply (List.perm_ext_iff_of_nodup ?_ ?_).2
    · intro y
      constructor
      · intro hy
        obtain ⟨k, hk, hky⟩ := List.mem_map.1 hy
        obtain ⟨hkmem, hk2⟩ := List.mem_filter.1 hk
        have hk2' : k.2 = m := by simpa using hk2
        have hkm : (y, m) ∈ ymOf s := by
          rw [← hky, ← hk2']
          simpa using hkmem
        obtain ⟨o, ho, hoe⟩ := List.mem_map.1 (mem_firstDedup.1 hkm)
        have hoy : o.year = y := congrArg Prod.fst hoe
        exact mem_firstDedup.2 (List.mem_map.2 ⟨o, ho, hoy⟩)
      · intro hy
        exact List.mem_map.2
          ⟨(y, m), List.mem_filter.2 ⟨hfull y hy, by simp⟩, rfl⟩
    · apply List.Nodup.map_on
      · intro x hx y' hy' hxy
        have hx2 : x.2 = m := by simpa using (List.mem_filter.1 hx).2
        have hy2 : y'.2 = m := by simpa using (List.mem_filter.1 hy').2
        exact Prod.ext hxy (by rw [hx2, hy2])
      · exact (nodup_firstDedup _).filter _
    · exact nodup_firstDedup _
  have h1 : ((monthly_aggregate method s).filter
        (fun p => p.1.2 = m)).map (fun p => p.2)
      = ((ymOf s).filter (fun k => k.2 = m)).map
          (fun k => aggBy method (valuesAt s k.1 k.2)) := by
    simp only [monthly_aggregate]
    rw [List.filter_map, List.map_map]
    rfl
  have h2 : ((ymOf s).filter (fun k => k.2 = m)).map
        (fun k => aggBy method (valuesAt s k.1 k.2))
      = ((ymOf s).filter (fun k => k.2 = m)).map
          (fun k => aggBy method (valuesAt s k.1 m)) := by
    apply List.map_congr_left
    intro k hk
    have hk2 : k.2 = m := by simpa using (List.mem_filter.1 hk).2
    rw [hk2]
  have h3 : ((ymOf s).filter (fun k => k.2 = m)).map
        (fun k => aggBy method (valuesAt s k.1 m))
      = (((ymOf s).filter (fun k => k.2 = m)).map Prod.fst).map
          (fun y => aggBy method (valuesAt s y m)) := by
    rw [List.map_map]
    rfl
  rw [h1, h2, h3]
  exact meanQ_perm (hperm.map _)

/-- Claim C7.  For every series covering N ≥ 1 full calendar years —
every month 1–12 of every year of the series is present — the monthly
climatology has exactly 12 entries, indexed by calendar month 1 through
12 in order, each entry being the across-years mean of that month's
monthly aggregate. -/
theorem monthly_climatology_full_years (method : String) (s : List Obs)
    (hne : s ≠ [])
    (_hm : ∀ o ∈ s, 1 ≤ o.month ∧ o.month ≤ 12)
    (hfull : ∀ y ∈ yearsOf s, ∀ m ∈ monthNums, (y, m) ∈ ymOf s) :
    (monthly_climatology method s).map Prod.fst = monthNums ∧
    (monthly_climatology method s).length = 12 ∧
    (∀ p ∈ monthly_climatology method s,
      p.2 = meanQ ((yearsOf s).map
        (fun y => aggBy method (valuesAt s y p.1)))) := by
  have hy0 : yearsOf s ≠ [] := firstDedup_ne_nil (by simpa using hne)
  obtain ⟨y0, hy0mem⟩ := List.exists_mem_of_ne_nil _ hy0
  have hfilter : monthNums.filter
        (fun m => (ymOf s).any (fun k => k.2 = m)) = monthNums := by
    apply List.filter_eq_self.2
    intro m hm'
    exact List.any_eq_true.2 ⟨(y0, m), hfull y0 hy0mem m hm', by simp⟩
  have hclim : monthly_climatology method s
      = monthNums.map (fun m => (m, meanQ (((monthly_aggregate
          method s).filter (fun p => p.1.2 = m)).map (fun p => p.2)))) := by
    simp only [monthly_climatology]
    rw [hfilter]
  refine ⟨?_, ?_, ?_⟩
  · rw [hclim, List.map_map]
    exact List.map_id _
  · rw [hclim]
    simp [monthNums]
  · intro p hp
    rw [hclim] at hp
    obtain ⟨m, hmmem, rfl⟩ := List.mem_map.1 hp
    simpa using climatology_month_value method s m
      (fun y hy => hfull y hy m hmmem)

/-- Witness for C7 at a concrete input: one full calendar year of
monthly observations yields a climatology with exactly the 12 calendar
months as keys. -/
theorem monthly_climatology_full_years_witness :
    ([Obs.mk 2000 1 1, Obs.mk 2000 2 2, Obs.mk 2000 3 3, Obs.mk 2000 4 4,
      Obs.mk 2000 5 5, Obs.mk 2000 6 6, Obs.mk 2000 7 7, Obs.mk 2000 8 8,
      Obs.mk 2000 9 9, Obs.mk 2000 10 10, Obs.mk 2000 11 11,
      Obs.mk 2000 12 12] : List Obs) ≠ [] ∧
    (monthly_climatology "mean"
      [Obs.mk 2000 1 1, Obs.mk 2000 2 2, Obs.mk 2000 3 3, Obs.mk 2000 4 4,
       Obs.mk 2000 5 5, Obs.mk 2000 6 6, Obs.mk 2000 7 7, Obs.mk 2000 8 8,
       Obs.mk 2000 9 9, Obs.mk 2000 10 10, Obs.mk 2000 11 11,
       Obs.mk 2000 12 12]).map Prod.fst = monthNums ∧
    (monthly_climatology "mean"
      [Obs.mk 2000 1 1, Obs.mk 2000 2 2, Obs.mk 2000 3 3, Obs.mk 2000 4 4,
       Obs.mk 2000 5 5, Obs.mk 2000 6 6, Obs.mk 2000 7 7, Obs.mk 2000 8 8,
       Obs.mk 2000 9 9, Obs.mk 2000 10 10, Obs.mk 2000 11 11,
       Obs.mk 2000 12 12]).length = 12 := by
  refine ⟨by decide, ?_, ?_⟩
  · exact (monthly_climatology_full_years "mean" _ (by decide) (by decide)
      (by decide)).1
  · exact (monthly_climatology_full_years "mean" _ (by decide) (by decide)
      (by decide)).2.1
